import Mathlib

/-!
Verification of the confluence rule-evaluation and aggregation engine of
`betterpridictormodule.py` (class `TradingAnalyzer`).

Numeric snapshot values are modelled as exact rationals extended with a
`nan` element reproducing Python float-NaN comparison semantics (every
comparison involving NaN is false).  Signals, confluence sets and the
analyzer state are modelled as plain structures; the evaluators and the
aggregator are translated statement by statement from the source.
-/

namespace BetterPredictor

/-- A snapshot cell: either an exact rational number or NaN. -/
inductive Val where
  | num (q : ℚ)
  | nan
deriving DecidableEq

/-- Python `a < b` on floats: false whenever either side is NaN. -/
def Val.lt : Val → Val → Bool
  | Val.num a, Val.num b => decide (a < b)
  | _, _ => false

/-- Python `a <= b` on floats: false whenever either side is NaN. -/
def Val.le : Val → Val → Bool
  | Val.num a, Val.num b => decide (a ≤ b)
  | _, _ => false

/-- Python `a > b` on floats. -/
def Val.gt (a b : Val) : Bool := Val.lt b a

/-- Python `a >= b` on floats. -/
def Val.ge (a b : Val) : Bool := Val.le b a

/-- Multiplication; NaN propagates. -/
def Val.mul : Val → Val → Val
  | Val.num a, Val.num b => Val.num (a * b)
  | _, _ => Val.nan

/-- Subtraction; NaN propagates. -/
def Val.sub : Val → Val → Val
  | Val.num a, Val.num b => Val.num (a - b)
  | _, _ => Val.nan

/-- Division; NaN propagates (a zero denominator is abstracted to NaN). -/
def Val.div : Val → Val → Val
  | Val.num a, Val.num b => if b = 0 then Val.nan else Val.num (a / b)
  | _, _ => Val.nan

/-- Rendering of a value inside a condition string (abstracts Python
number formatting such as `:.1f`). -/
def Val.fmt : Val → String
  | Val.num q => toString q
  | Val.nan => "nan"

/-- One detected condition, mirroring the dict literals appended by the
evaluators: `indicator`, `condition`, `implication`, `strength`,
`timeframe`. -/
structure Signal where
  indicator : String
  condition : String
  implication : String
  strength : String
  timeframe : String
deriving DecidableEq

/-- The `{'bullish': [...], 'bearish': [...], 'neutral': [...]}` dict of
signal lists built by each evaluator and by the combining step. -/
structure Confluences where
  bullish : List Signal
  bearish : List Signal
  neutral : List Signal
deriving DecidableEq

/-- `confluences['bullish'].append(s)`. -/
def addBull (c : Confluences) (s : Signal) : Confluences :=
  { c with bullish := c.bullish ++ [s] }

/-- `confluences['bearish'].append(s)`. -/
def addBear (c : Confluences) (s : Signal) : Confluences :=
  { c with bearish := c.bearish ++ [s] }

/-- `confluences['neutral'].append(s)`. -/
def addNeut (c : Confluences) (s : Signal) : Confluences :=
  { c with neutral := c.neutral ++ [s] }

/-- The indicator row handed to the evaluators (`df.iloc[-1]`): exactly
the fields the five evaluators read. -/
structure Row where
  Open : Val
  Close : Val
  RSI_14 : Val
  Stoch_K : Val
  Stoch_D : Val
  Williams_R : Val
  EMA_9 : Val
  EMA_21 : Val
  EMA_50 : Val
  MACD : Val
  MACD_Signal : Val
  MACD_Histogram : Val
  ADX : Val
  DI_Plus : Val
  DI_Minus : Val
  BB_Position : Val
  BB_Width : Val
  ATR_Percent : Val
  Volume_Ratio : Val
  CMF : Val
  Body_Size : Val
  Upper_Wick : Val
  Lower_Wick : Val
deriving DecidableEq

/-- The analyzer state: `__init__` stores the single tunable
`self.confluence_threshold`. -/
structure TradingAnalyzer where
  confluence_threshold : ℕ
deriving DecidableEq

/-- `TradingAnalyzer.__init__`: `self.confluence_threshold = 3`. -/
def TradingAnalyzer.init : TradingAnalyzer := ⟨3⟩

/-- `TradingAnalyzer.analyze_momentum_confluence`, lines 117-183 of the
source: RSI, Stochastic and Williams percent-R rules. -/
def TradingAnalyzer.analyze_momentum_confluence (self : TradingAnalyzer) (row : Row) :
    Confluences :=
  let confluences : Confluences := ⟨[], [], []⟩
  let confluences :=
    if row.RSI_14.lt (Val.num 30) then
      addBull confluences
        { indicator := "RSI (14)"
          condition := "Oversold at " ++ row.RSI_14.fmt
          implication := "Potential bounce or reversal setup. Watch for bullish divergence or break above 30."
          strength := "Medium"
          timeframe := "Short-term" }
    else if row.RSI_14.gt (Val.num 70) then
      addBear confluences
        { indicator := "RSI (14)"
          condition := "Overbought at " ++ row.RSI_14.fmt
          implication := "Potential pullback or distribution. Watch for bearish divergence or break below 70."
          strength := "Medium"
          timeframe := "Short-term" }
    else if (Val.num 45).le row.RSI_14 && row.RSI_14.le (Val.num 55) then
      addNeut confluences
        { indicator := "RSI (14)"
          condition := "Neutral at " ++ row.RSI_14.fmt
          implication := "Balanced momentum. Look for directional break above 55 or below 45."
          strength := "Low"
          timeframe := "Short-term" }
    else confluences
  let confluences :=
    if row.Stoch_K.lt (Val.num 20) && row.Stoch_D.lt (Val.num 20) then
      addBull confluences
        { indicator := "Stochastic"
          condition := "Both %K (" ++ row.Stoch_K.fmt ++ ") and %D (" ++ row.Stoch_D.fmt ++ ") oversold"
          implication := "Strong oversold condition. Potential reversal when %K crosses above %D."
          strength := if row.Stoch_K.gt row.Stoch_D then "Strong" else "Medium"
          timeframe := "Short-term" }
    else if row.Stoch_K.gt (Val.num 80) && row.Stoch_D.gt (Val.num 80) then
      addBear confluences
        { indicator := "Stochastic"
          condition := "Both %K (" ++ row.Stoch_K.fmt ++ ") and %D (" ++ row.Stoch_D.fmt ++ ") overbought"
          implication := "Strong overbought condition. Potential reversal when %K crosses below %D."
          strength := if row.Stoch_K.lt row.Stoch_D then "Strong" else "Medium"
          timeframe := "Short-term" }
    else confluences
  let confluences :=
    if row.Williams_R.lt (Val.num (-80)) then
      addBull confluences
        { indicator := "Williams %R"
          condition := "Oversold at " ++ row.Williams_R.fmt
          implication := "Potential buying opportunity. Watch for move above -80 for confirmation."
          strength := "Medium"
          timeframe := "Short-term" }
    else if row.Williams_R.gt (Val.num (-20)) then
      addBear confluences
        { indicator := "Williams %R"
          condition := "Overbought at " ++ row.Williams_R.fmt
          implication := "Potential selling pressure. Watch for move below -20 for confirmation."
          strength := "Medium"
          timeframe := "Short-term" }
    else confluences
  confluences

/-- `TradingAnalyzer.analyze_trend_confluence`, lines 185-264 of the
source: EMA alignment, price versus EMA 21, MACD and ADX rules. -/
def TradingAnalyzer.analyze_trend_confluence (self : TradingAnalyzer) (row : Row) :
    Confluences :=
  let confluences : Confluences := ⟨[], [], []⟩
  let ema_alignment : String :=
    if row.EMA_9.gt row.EMA_21 && row.EMA_21.gt row.EMA_50 then "bullish"
    else if row.EMA_9.lt row.EMA_21 && row.EMA_21.lt row.EMA_50 then "bearish"
    else "mixed"
  let confluences :=
    if ema_alignment = "bullish" then
      addBull confluences
        { indicator := "EMA Alignment"
          condition := "EMA 9 > EMA 21 > EMA 50"
          implication := "Strong bullish trend structure. Expect continuation with pullbacks to EMAs as support."
          strength := "Strong"
          timeframe := "Medium-term" }
    else if ema_alignment = "bearish" then
      addBear confluences
        { indicator := "EMA Alignment"
          condition := "EMA 9 < EMA 21 < EMA 50"
          implication := "Strong bearish trend structure. Expect continuation with rallies to EMAs as resistance."
          strength := "Strong"
          timeframe := "Medium-term" }
    else confluences
  let confluences :=
    if row.Close.gt row.EMA_21 then
      addBull confluences
        { indicator := "Price vs EMA 21"
          condition := "Price " ++ (((row.Close.div row.EMA_21).sub (Val.num 1)).mul (Val.num 100)).fmt ++ "% above EMA 21"
          implication := "Bullish bias maintained. EMA 21 likely to act as dynamic support."
          strength := "Medium"
          timeframe := "Short to Medium-term" }
    else
      addBear confluences
        { indicator := "Price vs EMA 21"
          condition := "Price " ++ (((row.Close.div row.EMA_21).sub (Val.num 1)).mul (Val.num 100)).fmt ++ "% below EMA 21"
          implication := "Bearish bias maintained. EMA 21 likely to act as dynamic resistance."
          strength := "Medium"
          timeframe := "Short to Medium-term" }
  let confluences :=
    if row.MACD.gt row.MACD_Signal && row.MACD_Histogram.gt (Val.num 0) then
      addBull confluences
        { indicator := "MACD"
          condition := "MACD above signal line with positive histogram"
          implication := "Bullish momentum building. Watch for histogram expansion for stronger moves."
          strength := if row.MACD_Histogram.gt (Val.num 0) then "Strong" else "Medium"
          timeframe := "Medium-term" }
    else if row.MACD.lt row.MACD_Signal && row.MACD_Histogram.lt (Val.num 0) then
      addBear confluences
        { indicator := "MACD"
          condition := "MACD below signal line with negative histogram"
          implication := "Bearish momentum building. Watch for histogram expansion for stronger moves."
          strength := if row.MACD_Histogram.lt (Val.num 0) then "Strong" else "Medium"
          timeframe := "Medium-term" }
    else confluences
  let confluences :=
    if row.ADX.gt (Val.num 25) then
      let trend_direction : String := if row.DI_Plus.gt row.DI_Minus then "bullish" else "bearish"
      let sig : Signal :=
        { indicator := "ADX Trend Strength"
          condition := "Strong trending market (ADX: " ++ row.ADX.fmt ++ ")"
          implication := "Strong " ++ trend_direction ++ " trend in place. Expect trend continuation with minor pullbacks."
          strength := if row.ADX.gt (Val.num 40) then "Strong" else "Medium"
          timeframe := "Medium to Long-term" }
      if trend_direction = "bullish" then addBull confluences sig else addBear confluences sig
    else if row.ADX.lt (Val.num 20) then
      addNeut confluences
        { indicator := "ADX Trend Strength"
          condition := "Weak trending market (ADX: " ++ row.ADX.fmt ++ ")"
          implication := "Market in consolidation/ranging phase. Look for breakout setups."
          strength := "Medium"
          timeframe := "All timeframes" }
    else confluences
  confluences

/-- `TradingAnalyzer.analyze_volatility_confluence`, lines 266-317 of the
source: Bollinger position, Bollinger width and ATR rules. -/
def TradingAnalyzer.analyze_volatility_confluence (self : TradingAnalyzer) (row : Row) :
    Confluences :=
  let confluences : Confluences := ⟨[], [], []⟩
  let bb_pos := row.BB_Position
  let confluences :=
    if bb_pos.lt (Val.num (mkRat 1 10)) then
      addBull confluences
        { indicator := "Bollinger Bands"
          condition := "Price near lower band (Position: " ++ bb_pos.fmt ++ ")"
          implication := "Potential mean reversion setup. Watch for bounce off lower band or breakdown."
          strength := "Medium"
          timeframe := "Short-term" }
    else if bb_pos.gt (Val.num (mkRat 9 10)) then
      addBear confluences
        { indicator := "Bollinger Bands"
          condition := "Price near upper band (Position: " ++ bb_pos.fmt ++ ")"
          implication := "Potential mean reversion setup. Watch for rejection at upper band or breakout."
          strength := "Medium"
          timeframe := "Short-term" }
    else confluences
  let confluences :=
    if row.BB_Width.lt (Val.num 2) then
      addNeut confluences
        { indicator := "Bollinger Band Width"
          condition := "Low volatility environment (Width: " ++ row.BB_Width.fmt ++ "%)"
          implication := "Squeeze condition. Expect volatility expansion and potential breakout soon."
          strength := "Strong"
          timeframe := "Short to Medium-term" }
    else if row.BB_Width.gt (Val.num 8) then
      addNeut confluences
        { indicator := "Bollinger Band Width"
          condition := "High volatility environment (Width: " ++ row.BB_Width.fmt ++ "%)"
          implication := "Volatility expansion phase. Expect potential reversion to mean."
          strength := "Medium"
          timeframe := "Short-term" }
    else confluences
  let confluences :=
    if row.ATR_Percent.gt (Val.num 3) then
      addNeut confluences
        { indicator := "Average True Range"
          condition := "High volatility (ATR: " ++ row.ATR_Percent.fmt ++ "%)"
          implication := "Elevated volatility. Use wider stops and smaller position sizes."
          strength := "Medium"
          timeframe := "All timeframes" }
    else confluences
  confluences

/-- `TradingAnalyzer.analyze_volume_confluence`, lines 319-359 of the
source: volume-ratio and Chaikin Money Flow rules. -/
def TradingAnalyzer.analyze_volume_confluence (self : TradingAnalyzer) (row : Row) :
    Confluences :=
  let confluences : Confluences := ⟨[], [], []⟩
  let confluences :=
    if row.Volume_Ratio.gt (Val.num (mkRat 3 2)) then
      addNeut confluences
        { indicator := "Volume"
          condition := "Above average volume (" ++ row.Volume_Ratio.fmt ++ "x normal)"
          implication := "Strong participation. Moves likely to be more sustainable."
          strength := if row.Volume_Ratio.gt (Val.num 2) then "Strong" else "Medium"
          timeframe := "Short-term" }
    else if row.Volume_Ratio.lt (Val.num (mkRat 7 10)) then
      addNeut confluences
        { indicator := "Volume"
          condition := "Below average volume (" ++ row.Volume_Ratio.fmt ++ "x normal)"
          implication := "Low participation. Moves may lack conviction and sustainability."
          strength := "Medium"
          timeframe := "Short-term" }
    else confluences
  let confluences :=
    if row.CMF.gt (Val.num (mkRat 1 5)) then
      addBull confluences
        { indicator := "Chaikin Money Flow"
          condition := "Strong buying pressure (CMF: " ++ row.CMF.fmt ++ ")"
          implication := "Money flowing into the asset. Supports bullish bias."
          strength := if row.CMF.gt (Val.num (mkRat 3 10)) then "Strong" else "Medium"
          timeframe := "Medium-term" }
    else if row.CMF.lt (Val.num (mkRat (-1) 5)) then
      addBear confluences
        { indicator := "Chaikin Money Flow"
          condition := "Strong selling pressure (CMF: " ++ row.CMF.fmt ++ ")"
          implication := "Money flowing out of the asset. Supports bearish bias."
          strength := if row.CMF.lt (Val.num (mkRat (-3) 10)) then "Strong" else "Medium"
          timeframe := "Medium-term" }
    else confluences
  confluences

/-- `TradingAnalyzer.analyze_price_action`, lines 361-395 of the source:
candle-body and wick rules. -/
def TradingAnalyzer.analyze_price_action (self : TradingAnalyzer) (row : Row) :
    Confluences :=
  let confluences : Confluences := ⟨[], [], []⟩
  let confluences :=
    if row.Body_Size.gt (Val.num 2) then
      let candle_type : String := if row.Close.gt row.Open then "bullish" else "bearish"
      let sig : Signal :=
        { indicator := "Price Action"
          condition := "Large " ++ candle_type ++ " candle (Body: " ++ row.Body_Size.fmt ++ "%)"
          implication := "Strong " ++ candle_type ++ " conviction. Expect follow-through in next few candles."
          strength := if row.Body_Size.gt (Val.num 3) then "Strong" else "Medium"
          timeframe := "Short-term" }
      if candle_type = "bullish" then addBull confluences sig else addBear confluences sig
    else confluences
  let confluences :=
    if row.Upper_Wick.gt (row.Body_Size.mul (Val.num 2)) && row.Close.gt row.Open then
      addBear confluences
        { indicator := "Price Action - Wicks"
          condition := "Long upper wick on bullish candle (Wick: " ++ row.Upper_Wick.fmt ++ "%)"
          implication := "Rejection at highs despite bullish close. Potential resistance area."
          strength := "Medium"
          timeframe := "Short-term" }
    else confluences
  let confluences :=
    if row.Lower_Wick.gt (row.Body_Size.mul (Val.num 2)) && row.Close.lt row.Open then
      addBull confluences
        { indicator := "Price Action - Wicks"
          condition := "Long lower wick on bearish candle (Wick: " ++ row.Lower_Wick.fmt ++ "%)"
          implication := "Support found at lows despite bearish close. Potential support area."
          strength := "Medium"
          timeframe := "Short-term" }
    else confluences
  confluences

/-- `TradingAnalyzer.generate_comprehensive_analysis`, lines 397-421 of
the source, from the `latest_row = df.iloc[-1]` extraction onward: runs
the five evaluators and concatenates their per-direction lists in the
fixed order momentum, trend, volatility, volume, price action. -/
def TradingAnalyzer.generate_comprehensive_analysis (self : TradingAnalyzer)
    (latest_row : Row) : Confluences × Row :=
  let momentum_conf := self.analyze_momentum_confluence latest_row
  let trend_conf := self.analyze_trend_confluence latest_row
  let volatility_conf := self.analyze_volatility_confluence latest_row
  let volume_conf := self.analyze_volume_confluence latest_row
  let price_action_conf := self.analyze_price_action latest_row
  let all_confluences : Confluences :=
    { bullish := momentum_conf.bullish ++ trend_conf.bullish ++
        volatility_conf.bullish ++ volume_conf.bullish ++ price_action_conf.bullish
      bearish := momentum_conf.bearish ++ trend_conf.bearish ++
        volatility_conf.bearish ++ volume_conf.bearish ++ price_action_conf.bearish
      neutral := momentum_conf.neutral ++ trend_conf.neutral ++
        volatility_conf.neutral ++ volume_conf.neutral ++ price_action_conf.neutral }
  (all_confluences, latest_row)

/-- Observation helper: is this the RSI signal of the momentum rules. -/
def isRSI (s : Signal) : Bool := decide (s.indicator = "RSI (14)")

/-- Observation helper: is this the ADX signal of the trend rules. -/
def isADX (s : Signal) : Bool := decide (s.indicator = "ADX Trend Strength")

/-- `strength_weights = {'Strong': 3, 'Medium': 2, 'Low': 1}` together
with the `.get(strength, 1)` default used at every lookup. -/
def strength_weights (s : String) : ℕ :=
  if s = "Strong" then 3 else if s = "Medium" then 2 else if s = "Low" then 1 else 1

/-- `bullish_score = sum(strength_weights.get(conf['strength'], 1) for conf in confluences['bullish'])`. -/
def bullish_score (c : Confluences) : ℕ :=
  (c.bullish.map fun conf => strength_weights conf.strength).sum

/-- The same sum over `confluences['bearish']`. -/
def bearish_score (c : Confluences) : ℕ :=
  (c.bearish.map fun conf => strength_weights conf.strength).sum

/-- The same sum over `confluences['neutral']`. -/
def neutral_score (c : Confluences) : ℕ :=
  (c.neutral.map fun conf => strength_weights conf.strength).sum

/-- `total_score = bullish_score + bearish_score + neutral_score`. -/
def total_score (c : Confluences) : ℕ :=
  bullish_score c + bearish_score c + neutral_score c

/-- `TradingAnalyzer.calculate_confluence_strength`, lines 423-443 of the
source, translated branch by branch.  Confidence is an exact rational. -/
def TradingAnalyzer.calculate_confluence_strength (self : TradingAnalyzer)
    (confluences : Confluences) : String × ℚ :=
  if total_score confluences = 0 then ("No Clear Signal", 0)
  else if bullish_score confluences > bearish_score confluences ∧
      bullish_score confluences ≥ self.confluence_threshold then
    ("Bullish Bias", ((bullish_score confluences : ℚ) / (total_score confluences : ℚ)) * 100)
  else if bearish_score confluences > bullish_score confluences ∧
      bearish_score confluences ≥ self.confluence_threshold then
    ("Bearish Bias", ((bearish_score confluences : ℚ) / (total_score confluences : ℚ)) * 100)
  else
    ("Mixed/Neutral",
      (((max (bullish_score confluences) (bearish_score confluences) : ℕ) : ℚ) /
        (total_score confluences : ℚ)) * 100)

/-- Weight table transcribed from the words of spec section 4.2 step 1:
Strong is 3, Medium is 2, Low is 1, anything unrecognized defaults to 1. -/
def specWeight : String → ℕ
  | "Strong" => 3
  | "Medium" => 2
  | "Low" => 1
  | _ => 1

/-- Aggregation algorithm transcribed from the words of spec section 4.2
(steps 2-6), to be compared with the source translation
`TradingAnalyzer.calculate_confluence_strength`. -/
def specAggregate (confluenceThreshold : ℕ) (c : Confluences) : String × ℚ :=
  let bullishScore := (c.bullish.map fun s => specWeight s.strength).sum
  let bearishScore := (c.bearish.map fun s => specWeight s.strength).sum
  let neutralScore := (c.neutral.map fun s => specWeight s.strength).sum
  let totalScore := bullishScore + bearishScore + neutralScore
  if totalScore = 0 then ("No Clear Signal", 0)
  else if bullishScore > bearishScore ∧ bullishScore ≥ confluenceThreshold then
    ("Bullish Bias", 100 * (bullishScore : ℚ) / (totalScore : ℚ))
  else if bearishScore > bullishScore ∧ bearishScore ≥ confluenceThreshold then
    ("Bearish Bias", 100 * (bearishScore : ℚ) / (totalScore : ℚ))
  else
    ("Mixed/Neutral", 100 * (max bullishScore bearishScore : ℚ) / (totalScore : ℚ))

/-- A quiet snapshot: no rule fires on it except the price-versus-EMA-21
rule, which always emits one of its two branches (here the bearish one,
since Close equals EMA 21). -/
def baseRow : Row :=
  { Open := Val.num 100, Close := Val.num 100, RSI_14 := Val.num 60,
    Stoch_K := Val.num 50, Stoch_D := Val.num 50, Williams_R := Val.num (-50),
    EMA_9 := Val.num 100, EMA_21 := Val.num 100, EMA_50 := Val.num 100,
    MACD := Val.num 0, MACD_Signal := Val.num 0, MACD_Histogram := Val.num 0,
    ADX := Val.num 22, DI_Plus := Val.num 20, DI_Minus := Val.num 20,
    BB_Position := Val.num (mkRat 1 2), BB_Width := Val.num 5, ATR_Percent := Val.num 1,
    Volume_Ratio := Val.num 1, CMF := Val.num 0, Body_Size := Val.num 1,
    Upper_Wick := Val.num (mkRat 1 2), Lower_Wick := Val.num (mkRat 1 2) }

/-- A snapshot whose RSI field is NaN while CMF and Close would fire
bullish rules: used to show that evaluation proceeds with no error and
silently skips the RSI rule. -/
def c2Row : Row :=
  { baseRow with RSI_14 := Val.nan, Close := Val.num 101, CMF := Val.num (mkRat 1 4) }

/-- The end-to-end scenario snapshot of the spec: RSI 25, Stochastic
15/12, Williams -85, EMAs 110 > 105 > 100 with Close 106, MACD 1 over
signal 0.5 with histogram 0.5, ADX 30 with DI+ 30 over DI- 10, Bollinger
position 0.05, CMF 0.25, bullish candle with body 2.5 percent, and all
remaining fields quiet. -/
def c8Row : Row :=
  { Open := Val.num 100, Close := Val.num 106, RSI_14 := Val.num 25,
    Stoch_K := Val.num 15, Stoch_D := Val.num 12, Williams_R := Val.num (-85),
    EMA_9 := Val.num 110, EMA_21 := Val.num 105, EMA_50 := Val.num 100,
    MACD := Val.num 1, MACD_Signal := Val.num (mkRat 1 2), MACD_Histogram := Val.num (mkRat 1 2),
    ADX := Val.num 30, DI_Plus := Val.num 30, DI_Minus := Val.num 10,
    BB_Position := Val.num (mkRat 1 20), BB_Width := Val.num 5, ATR_Percent := Val.num 1,
    Volume_Ratio := Val.num 1, CMF := Val.num (mkRat 1 4), Body_Size := Val.num (mkRat 5 2),
    Upper_Wick := Val.num (mkRat 1 10), Lower_Wick := Val.num (mkRat 1 10) }

/-- The quiet snapshot with RSI forced to 25 (oversold). -/
def rsiOversoldRow : Row := { baseRow with RSI_14 := Val.num 25 }

/-- The quiet snapshot with RSI forced to 75 (overbought). -/
def rsiOverboughtRow : Row := { baseRow with RSI_14 := Val.num 75 }

/-- The quiet snapshot with RSI forced to 50 (neutral band). -/
def rsiNeutralRow : Row := { baseRow with RSI_14 := Val.num 50 }

/-- The quiet snapshot with RSI exactly 30 (oversold boundary). -/
def rsiAt30Row : Row := { baseRow with RSI_14 := Val.num 30 }

/-- The quiet snapshot with RSI exactly 70 (overbought boundary). -/
def rsiAt70Row : Row := { baseRow with RSI_14 := Val.num 70 }

/-- The quiet snapshot with ADX 30 and DI+ 30 over DI- 10. -/
def adxBullRow : Row :=
  { baseRow with ADX := Val.num 30, DI_Plus := Val.num 30, DI_Minus := Val.num 10 }

/-- The quiet snapshot with ADX 30 and DI+ 10 under DI- 20. -/
def adxBearRow : Row :=
  { baseRow with ADX := Val.num 30, DI_Plus := Val.num 10, DI_Minus := Val.num 20 }

/-- The quiet snapshot with ADX 15 (ranging market). -/
def adxLowRow : Row := { baseRow with ADX := Val.num 15 }

/-- The quiet snapshot with ADX exactly 25. -/
def adxAt25Row : Row := { baseRow with ADX := Val.num 25 }

/-- The quiet snapshot with ADX exactly 20. -/
def adxAt20Row : Row := { baseRow with ADX := Val.num 20 }

/-- The quiet snapshot with ADX 25.01 and DI+ 30 over DI- 10. -/
def adx2501Row : Row :=
  { baseRow with ADX := Val.num (mkRat 2501 100), DI_Plus := Val.num 30, DI_Minus := Val.num 10 }

/-- One Medium bullish signal: bullishScore 2, bearishScore 0, total 2. -/
def c3Counter : Confluences :=
  ⟨[{ indicator := "X", condition := "x", implication := "x",
      strength := "Medium", timeframe := "x" }], [], []⟩

/-- One Medium bullish and one Medium neutral signal: scores 2, 0, 2. -/
def c3W : Confluences :=
  ⟨[{ indicator := "X", condition := "x", implication := "x",
      strength := "Medium", timeframe := "x" }], [],
   [{ indicator := "Y", condition := "y", implication := "y",
      strength := "Medium", timeframe := "y" }]⟩

/-- One Medium bullish against one Medium bearish signal: a 2-2 tie. -/
def c4Set : Confluences :=
  ⟨[{ indicator := "X", condition := "x", implication := "x",
      strength := "Medium", timeframe := "x" }],
   [{ indicator := "Y", condition := "y", implication := "y",
      strength := "Medium", timeframe := "y" }], []⟩

/-- One Strong bullish signal: bullishScore 3, classified differently by
thresholds 3 and 4. -/
def c9Set : Confluences :=
  ⟨[{ indicator := "X", condition := "x", implication := "x",
      strength := "Strong", timeframe := "x" }], [], []⟩

/-- One Low neutral signal and nothing else. -/
def c10Set : Confluences :=
  ⟨[], [],
   [{ indicator := "X", condition := "x", implication := "x",
      strength := "Low", timeframe := "x" }]⟩

lemma specWeight_eq_strength_weights (s : String) : specWeight s = strength_weights s := by
  unfold specWeight strength_weights
  split <;> simp_all

lemma strength_weights_pos (s : String) : 1 ≤ strength_weights s := by
  unfold strength_weights
  split <;> try split <;> try split
  all_goals simp

lemma score_pos_of_ne_nil (l : List Signal) (h : l ≠ []) :
    1 ≤ (l.map fun conf => strength_weights conf.strength).sum := by
  cases l with
  | nil => exact absurd rfl h
  | cons a t =>
    simp only [List.map_cons, List.sum_cons]
    exact le_add_right (strength_weights_pos a.strength)

lemma ite_bullish (c : Prop) [Decidable c] (x y : Confluences) :
    (if c then x else y).bullish = if c then x.bullish else y.bullish := by
  split <;> rfl

lemma ite_bearish (c : Prop) [Decidable c] (x y : Confluences) :
    (if c then x else y).bearish = if c then x.bearish else y.bearish := by
  split <;> rfl

lemma ite_neutral (c : Prop) [Decidable c] (x y : Confluences) :
    (if c then x else y).neutral = if c then x.neutral else y.neutral := by
  split <;> rfl

lemma ite_filter (p : Signal → Bool) (c : Prop) [Decidable c] (l m : List Signal) :
    (if c then l else m).filter p = if c then l.filter p else m.filter p := by
  split <;> rfl

lemma ite_map (f : Signal → String) (c : Prop) [Decidable c] (l m : List Signal) :
    (if c then l else m).map f = if c then l.map f else m.map f := by
  split <;> rfl

lemma val_lt_num_elim_right {v : Val} {b : ℚ} (h : Val.lt v (Val.num b) = true) :
    ∃ q : ℚ, v = Val.num q ∧ q < b := by
  cases v with
  | num q => exact ⟨q, rfl, by simpa [Val.lt] using h⟩
  | nan => simp [Val.lt] at h

lemma val_lt_num_elim_left {v : Val} {b : ℚ} (h : Val.lt (Val.num b) v = true) :
    ∃ q : ℚ, v = Val.num q ∧ b < q := by
  cases v with
  | num q => exact ⟨q, rfl, by simpa [Val.lt] using h⟩
  | nan => simp [Val.lt] at h

lemma val_le_num_elim_left {v : Val} {b : ℚ} (h : Val.le (Val.num b) v = true) :
    ∃ q : ℚ, v = Val.num q ∧ b ≤ q := by
  cases v with
  | num q => exact ⟨q, rfl, by simpa [Val.le] using h⟩
  | nan => simp [Val.le] at h

lemma momentum_no_rsi_of_nan (a : TradingAnalyzer) (row : Row) (h : row.RSI_14 = Val.nan) :
    (a.analyze_momentum_confluence row).bullish.filter isRSI = [] ∧
    (a.analyze_momentum_confluence row).bearish.filter isRSI = [] ∧
    (a.analyze_momentum_confluence row).neutral.filter isRSI = [] := by
  have hlt : Val.lt Val.nan (Val.num 30) = false := rfl
  have hgt : Val.gt Val.nan (Val.num 70) = false := rfl
  have hband : ((Val.num 45).le Val.nan && Val.nan.le (Val.num 55)) = false := rfl
  refine ⟨?_, ?_, ?_⟩ <;>
    simp [TradingAnalyzer.analyze_momentum_confluence, h, hlt, hgt, hband, ite_bullish,
      ite_bearish, ite_neutral, ite_filter, addBull, addBear, addNeut, isRSI,
      List.filter_append]

lemma trend_no_rsi (a : TradingAnalyzer) (row : Row) :
    (a.analyze_trend_confluence row).bullish.filter isRSI = [] ∧
    (a.analyze_trend_confluence row).bearish.filter isRSI = [] ∧
    (a.analyze_trend_confluence row).neutral.filter isRSI = [] := by
  refine ⟨?_, ?_, ?_⟩ <;>
    simp [TradingAnalyzer.analyze_trend_confluence, ite_bullish, ite_bearish, ite_neutral,
      ite_filter, addBull, addBear, addNeut, isRSI, List.filter_append]

lemma volatility_no_rsi (a : TradingAnalyzer) (row : Row) :
    (a.analyze_volatility_confluence row).bullish.filter isRSI = [] ∧
    (a.analyze_volatility_confluence row).bearish.filter isRSI = [] ∧
    (a.analyze_volatility_confluence row).neutral.filter isRSI = [] := by
  refine ⟨?_, ?_, ?_⟩ <;>
    simp [TradingAnalyzer.analyze_volatility_confluence, ite_bullish, ite_bearish, ite_neutral,
      ite_filter, addBull, addBear, addNeut, isRSI, List.filter_append]

lemma volume_no_rsi (a : TradingAnalyzer) (row : Row) :
    (a.analyze_volume_confluence row).bullish.filter isRSI = [] ∧
    (a.analyze_volume_confluence row).bearish.filter isRSI = [] ∧
    (a.analyze_volume_confluence row).neutral.filter isRSI = [] := by
  refine ⟨?_, ?_, ?_⟩ <;>
    simp [TradingAnalyzer.analyze_volume_confluence, ite_bullish, ite_bearish, ite_neutral,
      ite_filter, addBull, addBear, addNeut, isRSI, List.filter_append]

lemma price_action_no_rsi (a : TradingAnalyzer) (row : Row) :
    (a.analyze_price_action row).bullish.filter isRSI = [] ∧
    (a.analyze_price_action row).bearish.filter isRSI = [] ∧
    (a.analyze_price_action row).neutral.filter isRSI = [] := by
  refine ⟨?_, ?_, ?_⟩ <;>
    simp [TradingAnalyzer.analyze_price_action, ite_bullish, ite_bearish, ite_neutral,
      ite_filter, addBull, addBear, addNeut, isRSI, List.filter_append]

lemma volume_cmf_fires (a : TradingAnalyzer) (row : Row)
    (h : row.CMF.gt (Val.num (mkRat 1 5)) = true) :
    (a.analyze_volume_confluence row).bullish ≠ [] := by
  simp [TradingAnalyzer.analyze_volume_confluence, h, ite_bullish, addBull, addBear, addNeut]

lemma label_of_total_ne_zero (a : TradingAnalyzer) (c : Confluences)
    (h : total_score c ≠ 0) :
    (a.calculate_confluence_strength c).1 = "Bullish Bias" ∨
    (a.calculate_confluence_strength c).1 = "Bearish Bias" ∨
    (a.calculate_confluence_strength c).1 = "Mixed/Neutral" := by
  unfold TradingAnalyzer.calculate_confluence_strength
  split_ifs <;> simp_all

lemma total_score_eq_zero_iff (c : Confluences) :
    total_score c = 0 ↔ c.bullish = [] ∧ c.bearish = [] ∧ c.neutral = [] := by
  constructor
  · intro h
    unfold total_score bullish_score bearish_score neutral_score at h
    refine ⟨?_, ?_, ?_⟩ <;> by_contra hne
    · have h1 := score_pos_of_ne_nil _ hne
      omega
    · have h1 := score_pos_of_ne_nil _ hne
      omega
    · have h1 := score_pos_of_ne_nil _ hne
      omega
  · rintro ⟨h1, h2, h3⟩
    simp [total_score, bullish_score, bearish_score, neutral_score, h1, h2, h3]

/-- C1: the aggregator weighs Strong/Medium/Low as 3/2/1 (unrecognized
strengths as 1), sums per-direction scores, returns No Clear Signal with
confidence 0 exactly when the total score is 0, Bullish Bias with
100 times bullishScore over totalScore when bullish strictly exceeds
bearish and reaches the raw threshold, the symmetric Bearish Bias case,
and Mixed/Neutral with 100 times the larger score over totalScore
otherwise: the source translation coincides with the aggregation
algorithm transcribed from the spec, for every threshold and every
confluence set. -/
theorem calculate_confluence_strength_matches_spec (a : TradingAnalyzer) (c : Confluences) :
    a.calculate_confluence_strength c = specAggregate a.confluence_threshold c ∧
    ((a.calculate_confluence_strength c).1 = "No Clear Signal" ↔ total_score c = 0) := by
  have hw : ∀ l : List Signal,
      (l.map fun s => specWeight s.strength).sum
        = (l.map fun s => strength_weights s.strength).sum := by
    intro l
    simp [specWeight_eq_strength_weights]
  constructor
  · unfold TradingAnalyzer.calculate_confluence_strength specAggregate
    unfold total_score bullish_score bearish_score neutral_score
    simp only [hw]
    split_ifs
    · rfl
    · rw [Prod.mk.injEq]
      exact ⟨rfl, by ring⟩
    · rw [Prod.mk.injEq]
      exact ⟨rfl, by ring⟩
    · rw [Prod.mk.injEq]
      refine ⟨rfl, ?_⟩
      push_cast
      ring
  · constructor
    · intro hlab
      by_contra h0
      rcases label_of_total_ne_zero a c h0 with h1 | h1 | h1 <;>
        rw [h1] at hlab <;> exact absurd hlab (by decide)
    · intro h0
      unfold TradingAnalyzer.calculate_confluence_strength
      rw [if_pos h0]

/-- C3 counterexample: a confluence set with a single Medium bullish
signal has bullishScore 2 and bearishScore 0, and with the default
threshold 3 it is classified Mixed/Neutral — but with confidence 100,
not 50, because its total score is 2. -/
theorem mixed_neutral_two_zero_counterexample :
    bullish_score c3Counter = 2 ∧ bearish_score c3Counter = 0 ∧
      TradingAnalyzer.init.confluence_threshold = 3 ∧
      TradingAnalyzer.init.calculate_confluence_strength c3Counter = ("Mixed/Neutral", 100) ∧
      (TradingAnalyzer.init.calculate_confluence_strength c3Counter).2 ≠ 50 := by
  have hbs : bullish_score c3Counter = 2 := by decide
  have hes : bearish_score c3Counter = 0 := by decide
  have hns : neutral_score c3Counter = 0 := by decide
  have hts : total_score c3Counter = 2 := by rw [total_score, hbs, hes, hns]
  have hfull : TradingAnalyzer.init.calculate_confluence_strength c3Counter
      = ("Mixed/Neutral", 100) := by
    simp only [TradingAnalyzer.calculate_confluence_strength, hts, hbs, hes, TradingAnalyzer.init]
    norm_num
  refine ⟨hbs, hes, rfl, hfull, ?_⟩
  rw [hfull]
  norm_num

/-- C3 amended: with the default threshold 3, every confluence set with
bullishScore 2 and bearishScore 0 is classified Mixed/Neutral even though
bullish is strictly larger, with confidence 100 times 2 over totalScore;
the confidence is 50 exactly in the compositions where neutralScore is 2
(total score 4). -/
theorem mixed_neutral_two_zero (c : Confluences)
    (hb : bullish_score c = 2) (he : bearish_score c = 0) :
    (TradingAnalyzer.init.calculate_confluence_strength c).1 = "Mixed/Neutral" ∧
      (TradingAnalyzer.init.calculate_confluence_strength c).2
        = 100 * 2 / (total_score c : ℚ) ∧
      (neutral_score c = 2 →
        TradingAnalyzer.init.calculate_confluence_strength c = ("Mixed/Neutral", 50)) := by
  have h0 : total_score c ≠ 0 := by
    unfold total_score
    omega
  have hmain : TradingAnalyzer.init.calculate_confluence_strength c
      = ("Mixed/Neutral",
          (((max (bullish_score c) (bearish_score c) : ℕ) : ℚ) / (total_score c : ℚ)) * 100) := by
    unfold TradingAnalyzer.calculate_confluence_strength
    rw [if_neg h0, if_neg, if_neg]
    · rintro ⟨hgt, -⟩
      omega
    · rintro ⟨-, hge⟩
      rw [hb] at hge
      exact absurd hge (by decide)
  have hmax : (max (bullish_score c) (bearish_score c) : ℕ) = 2 := by
    rw [hb, he]
    decide
  refine ⟨by rw [hmain], ?_, ?_⟩
  · rw [hmain, hmax]
    push_cast
    ring
  · intro hn
    have ht : total_score c = 4 := by
      unfold total_score
      omega
    rw [hmain, hmax, ht]
    norm_num

/-- C3 amended witness: one Medium bullish and one Medium neutral signal. -/
theorem mixed_neutral_two_zero_witness :
    bullish_score c3W = 2 ∧ bearish_score c3W = 0 ∧ neutral_score c3W = 2 ∧
      TradingAnalyzer.init.calculate_confluence_strength c3W = ("Mixed/Neutral", 50) :=
  ⟨by decide, by decide, by decide,
    (mixed_neutral_two_zero c3W (by decide) (by decide)).2.2 (by decide)⟩

/-- C4: whenever the total score is nonzero and the bullish and bearish
scores tie, the aggregator answers Mixed/Neutral with confidence 100
times the larger (equal) score over the total, for every threshold. -/
theorem tie_yields_mixed_neutral (a : TradingAnalyzer) (c : Confluences)
    (h0 : total_score c ≠ 0) (h : bullish_score c = bearish_score c) :
    a.calculate_confluence_strength c =
      ("Mixed/Neutral",
        100 * (max (bullish_score c) (bearish_score c) : ℚ) / (total_score c : ℚ)) := by
  unfold TradingAnalyzer.calculate_confluence_strength
  rw [if_neg h0, if_neg, if_neg]
  · rw [Prod.mk.injEq]
    refine ⟨rfl, ?_⟩
    push_cast
    ring
  · rintro ⟨hgt, -⟩
    omega
  · rintro ⟨hgt, -⟩
    omega

/-- C4 witness: one Medium bullish against one Medium bearish signal,
threshold 3; the tie is reported Mixed/Neutral at confidence 50. -/
theorem tie_yields_mixed_neutral_witness :
    total_score c4Set ≠ 0 ∧ bullish_score c4Set = bearish_score c4Set ∧
      TradingAnalyzer.init.calculate_confluence_strength c4Set =
        ("Mixed/Neutral",
          100 * (max (bullish_score c4Set) (bearish_score c4Set) : ℚ) / (total_score c4Set : ℚ)) :=
  ⟨by decide, by decide,
    tie_yields_mixed_neutral TradingAnalyzer.init c4Set (by decide) (by decide)⟩

/-- C9: the threshold defaults to 3, the analyzer state consists of the
threshold alone (it is the only tunable), and the aggregation genuinely
depends on it (it is not hardcoded): two thresholds can classify the
same confluence set differently. -/
theorem confluence_threshold_is_the_parameter :
    TradingAnalyzer.init.confluence_threshold = 3 ∧
    (∀ a : TradingAnalyzer, a = ⟨a.confluence_threshold⟩) ∧
    (∃ (c : Confluences) (t u : ℕ),
      TradingAnalyzer.calculate_confluence_strength ⟨t⟩ c ≠
        TradingAnalyzer.calculate_confluence_strength ⟨u⟩ c) := by
  refine ⟨rfl, fun _ => rfl, ⟨c9Set, 3, 4, ?_⟩⟩
  have hbs : bullish_score c9Set = 3 := by decide
  have hes : bearish_score c9Set = 0 := by decide
  have hns : neutral_score c9Set = 0 := by decide
  have hts : total_score c9Set = 3 := by rw [total_score, hbs, hes, hns]
  have h1 : (TradingAnalyzer.calculate_confluence_strength ⟨3⟩ c9Set).1 = "Bullish Bias" := by
    simp only [TradingAnalyzer.calculate_confluence_strength, hts, hbs, hes]
    norm_num
  have h2 : (TradingAnalyzer.calculate_confluence_strength ⟨4⟩ c9Set).1 = "Mixed/Neutral" := by
    simp only [TradingAnalyzer.calculate_confluence_strength, hts, hbs, hes]
    norm_num
  intro h
  rw [h, h2] at h1
  exact absurd h1 (by decide)

/-- C10: when the bullish and bearish lists are empty but the neutral
list is not, the aggregator answers Mixed/Neutral with confidence 0; the
No Clear Signal answer arises exactly when all three lists are empty. -/
theorem neutral_only_yields_mixed_zero (a : TradingAnalyzer) (c : Confluences) :
    (c.bullish = [] → c.bearish = [] → c.neutral ≠ [] →
      a.calculate_confluence_strength c = ("Mixed/Neutral", 0)) ∧
    ((a.calculate_confluence_strength c).1 = "No Clear Signal" ↔
      c.bullish = [] ∧ c.bearish = [] ∧ c.neutral = []) := by
  constructor
  · intro hb he hn
    have h1 : bullish_score c = 0 := by simp [bullish_score, hb]
    have h2 : bearish_score c = 0 := by simp [bearish_score, he]
    have h3 : 1 ≤ neutral_score c := score_pos_of_ne_nil _ hn
    have h0 : total_score c ≠ 0 := by
      unfold total_score
      omega
    unfold TradingAnalyzer.calculate_confluence_strength
    rw [if_neg h0, if_neg, if_neg]
    · rw [h1, h2]
      norm_num
    · rintro ⟨hgt, -⟩
      omega
    · rintro ⟨hgt, -⟩
      omega
  · constructor
    · intro hlab
      by_contra hne
      have h0 : total_score c ≠ 0 := fun h => hne ((total_score_eq_zero_iff c).mp h)
      rcases label_of_total_ne_zero a c h0 with h1 | h1 | h1 <;>
        rw [h1] at hlab <;> exact absurd hlab (by decide)
    · intro h
      have h0 : total_score c = 0 := (total_score_eq_zero_iff c).mpr h
      unfold TradingAnalyzer.calculate_confluence_strength
      rw [if_pos h0]

/-- C10 witness: a single Low neutral signal yields Mixed/Neutral at
confidence 0. -/
theorem neutral_only_yields_mixed_zero_witness :
    TradingAnalyzer.init.calculate_confluence_strength c10Set = ("Mixed/Neutral", 0) :=
  (neutral_only_yields_mixed_zero TradingAnalyzer.init c10Set).1 rfl rfl (by decide)

/-- C7: the engine is deterministic (the evaluation of a snapshot is a
pure function, so evaluating it twice gives identical output), and the
combined confluence set is exactly the per-direction concatenation of
the five evaluators in the fixed order momentum, trend, volatility,
volume, price action. -/
theorem generate_is_deterministic_concatenation (a : TradingAnalyzer) (row : Row) :
    a.generate_comprehensive_analysis row = a.generate_comprehensive_analysis row ∧
    (a.generate_comprehensive_analysis row).1.bullish =
      (a.analyze_momentum_confluence row).bullish ++ (a.analyze_trend_confluence row).bullish ++
        (a.analyze_volatility_confluence row).bullish ++ (a.analyze_volume_confluence row).bullish ++
        (a.analyze_price_action row).bullish ∧
    (a.generate_comprehensive_analysis row).1.bearish =
      (a.analyze_momentum_confluence row).bearish ++ (a.analyze_trend_confluence row).bearish ++
        (a.analyze_volatility_confluence row).bearish ++ (a.analyze_volume_confluence row).bearish ++
        (a.analyze_price_action row).bearish ∧
    (a.generate_comprehensive_analysis row).1.neutral =
      (a.analyze_momentum_confluence row).neutral ++ (a.analyze_trend_confluence row).neutral ++
        (a.analyze_volatility_confluence row).neutral ++ (a.analyze_volume_confluence row).neutral ++
        (a.analyze_price_action row).neutral :=
  ⟨rfl, rfl, rfl, rfl⟩

/-- C8: on the end-to-end scenario snapshot the engine produces at least
six Strong or Medium bullish signals, a bullish score of at least 18, a
bearish score of 0, and the verdict Bullish Bias at confidence 100. -/
theorem end_to_end_bullish_scenario :
    6 ≤ ((TradingAnalyzer.init.generate_comprehensive_analysis c8Row).1.bullish.filter
        fun s => s.strength == "Strong" || s.strength == "Medium").length ∧
    ((TradingAnalyzer.init.generate_comprehensive_analysis c8Row).1.bullish.filter
        fun s => s.strength == "Strong" || s.strength == "Medium") =
      (TradingAnalyzer.init.generate_comprehensive_analysis c8Row).1.bullish ∧
    18 ≤ bullish_score (TradingAnalyzer.init.generate_comprehensive_analysis c8Row).1 ∧
    bearish_score (TradingAnalyzer.init.generate_comprehensive_analysis c8Row).1 = 0 ∧
    TradingAnalyzer.init.calculate_confluence_strength
        (TradingAnalyzer.init.generate_comprehensive_analysis c8Row).1 = ("Bullish Bias", 100) := by
  have hbs : bullish_score (TradingAnalyzer.init.generate_comprehensive_analysis c8Row).1 = 23 := by
    with_unfolding_all decide
  have hes : bearish_score (TradingAnalyzer.init.generate_comprehensive_analysis c8Row).1 = 0 := by
    with_unfolding_all decide
  have hns : neutral_score (TradingAnalyzer.init.generate_comprehensive_analysis c8Row).1 = 0 := by
    with_unfolding_all decide
  have hts : total_score (TradingAnalyzer.init.generate_comprehensive_analysis c8Row).1 = 23 := by
    rw [total_score, hbs, hes, hns]
  have hbias : TradingAnalyzer.init.calculate_confluence_strength
      (TradingAnalyzer.init.generate_comprehensive_analysis c8Row).1 = ("Bullish Bias", 100) := by
    simp only [TradingAnalyzer.calculate_confluence_strength]
    simp only [hts, hbs, hes]
    norm_num [TradingAnalyzer.init]
  refine ⟨by with_unfolding_all decide, by with_unfolding_all decide, ?_, hes, hbias⟩
  rw [hbs]
  norm_num

set_option maxHeartbeats 1600000 in
/-- C5: the momentum RSI rules are mutually exclusive with strict
extremes: RSI below 30 yields exactly one bullish Medium RSI signal, RSI
above 70 exactly one bearish Medium RSI signal, RSI inside the 45-55
band (which excludes both extremes) exactly one neutral Low RSI signal,
and RSI exactly 30 or exactly 70 yields no RSI signal at all. -/
theorem momentum_rsi_rules (a : TradingAnalyzer) (row : Row) :
    (row.RSI_14.lt (Val.num 30) = true →
      ((a.analyze_momentum_confluence row).bullish.filter isRSI).map Signal.strength = ["Medium"] ∧
      (a.analyze_momentum_confluence row).bearish.filter isRSI = [] ∧
      (a.analyze_momentum_confluence row).neutral.filter isRSI = []) ∧
    (row.RSI_14.gt (Val.num 70) = true →
      ((a.analyze_momentum_confluence row).bearish.filter isRSI).map Signal.strength = ["Medium"] ∧
      (a.analyze_momentum_confluence row).bullish.filter isRSI = [] ∧
      (a.analyze_momentum_confluence row).neutral.filter isRSI = []) ∧
    ((Val.num 45).le row.RSI_14 = true → row.RSI_14.le (Val.num 55) = true →
      row.RSI_14.lt (Val.num 30) = false ∧ row.RSI_14.gt (Val.num 70) = false ∧
      ((a.analyze_momentum_confluence row).neutral.filter isRSI).map Signal.strength = ["Low"] ∧
      (a.analyze_momentum_confluence row).bullish.filter isRSI = [] ∧
      (a.analyze_momentum_confluence row).bearish.filter isRSI = []) ∧
    (row.RSI_14 = Val.num 30 →
      (a.analyze_momentum_confluence row).bullish.filter isRSI = [] ∧
      (a.analyze_momentum_confluence row).bearish.filter isRSI = [] ∧
      (a.analyze_momentum_confluence row).neutral.filter isRSI = []) ∧
    (row.RSI_14 = Val.num 70 →
      (a.analyze_momentum_confluence row).bullish.filter isRSI = [] ∧
      (a.analyze_momentum_confluence row).bearish.filter isRSI = [] ∧
      (a.analyze_momentum_confluence row).neutral.filter isRSI = []) := by
  refine ⟨?_, ?_, ?_, ?_, ?_⟩
  · intro h
    simp only [TradingAnalyzer.analyze_momentum_confluence, h]
    split_ifs <;> simp_all [addBull, addBear, addNeut, isRSI]
  · intro h
    have h' : Val.lt (Val.num 70) row.RSI_14 = true := h
    obtain ⟨q, hq, h70⟩ := val_lt_num_elim_left h'
    have hlt : Val.lt row.RSI_14 (Val.num 30) = false := by
      rw [hq]
      exact decide_eq_false (by linarith)
    simp only [TradingAnalyzer.analyze_momentum_confluence, h, hlt]
    split_ifs <;> simp_all [addBull, addBear, addNeut, isRSI]
  · intro h45 h55
    obtain ⟨q, hq, h45q⟩ := val_le_num_elim_left h45
    rw [hq] at h55
    have h55q : q ≤ 55 := by simpa [Val.le] using h55
    have hlt : Val.lt row.RSI_14 (Val.num 30) = false := by
      rw [hq]
      exact decide_eq_false (by linarith)
    have hgt : Val.gt row.RSI_14 (Val.num 70) = false := by
      rw [hq]
      exact decide_eq_false (by linarith)
    have hband : ((Val.num 45).le row.RSI_14 && row.RSI_14.le (Val.num 55)) = true := by
      rw [hq]
      simp only [Bool.and_eq_true]
      constructor
      · simpa [Val.le] using h45q
      · simpa [Val.le] using h55q
    refine ⟨hlt, hgt, ?_, ?_, ?_⟩ <;>
      · simp only [TradingAnalyzer.analyze_momentum_confluence, hlt, hgt, hband]
        split_ifs <;> simp_all [addBull, addBear, addNeut, isRSI]
  · intro h
    have hlt : Val.lt (Val.num 30) (Val.num 30) = false := by decide
    have hgt : Val.gt (Val.num 30) (Val.num 70) = false := by decide
    have hband : ((Val.num 45).le (Val.num 30) && (Val.num 30).le (Val.num 55)) = false := by
      decide
    refine ⟨?_, ?_, ?_⟩ <;>
      · simp only [TradingAnalyzer.analyze_momentum_confluence, h, hlt, hgt, hband]
        split_ifs <;> simp_all [addBull, addBear, addNeut, isRSI]
  · intro h
    have hlt : Val.lt (Val.num 70) (Val.num 30) = false := by decide
    have hgt : Val.gt (Val.num 70) (Val.num 70) = false := by decide
    have hband : ((Val.num 45).le (Val.num 70) && (Val.num 70).le (Val.num 55)) = false := by
      decide
    refine ⟨?_, ?_, ?_⟩ <;>
      · simp only [TradingAnalyzer.analyze_momentum_confluence, h, hlt, hgt, hband]
        split_ifs <;> simp_all [addBull, addBear, addNeut, isRSI]

/-- C5 witness: the RSI rules evaluated at snapshots with RSI 25, 75,
50, exactly 30 and exactly 70. -/
theorem momentum_rsi_rules_witness :
    (((TradingAnalyzer.init.analyze_momentum_confluence rsiOversoldRow).bullish.filter
        isRSI).map Signal.strength = ["Medium"] ∧
      (TradingAnalyzer.init.analyze_momentum_confluence rsiOversoldRow).bearish.filter isRSI = [] ∧
      (TradingAnalyzer.init.analyze_momentum_confluence rsiOversoldRow).neutral.filter isRSI = []) ∧
    (((TradingAnalyzer.init.analyze_momentum_confluence rsiOverboughtRow).bearish.filter
        isRSI).map Signal.strength = ["Medium"] ∧
      (TradingAnalyzer.init.analyze_momentum_confluence rsiOverboughtRow).bullish.filter isRSI = [] ∧
      (TradingAnalyzer.init.analyze_momentum_confluence rsiOverboughtRow).neutral.filter isRSI = []) ∧
    (rsiNeutralRow.RSI_14.lt (Val.num 30) = false ∧
      rsiNeutralRow.RSI_14.gt (Val.num 70) = false ∧
      ((TradingAnalyzer.init.analyze_momentum_confluence rsiNeutralRow).neutral.filter
        isRSI).map Signal.strength = ["Low"] ∧
      (TradingAnalyzer.init.analyze_momentum_confluence rsiNeutralRow).bullish.filter isRSI = [] ∧
      (TradingAnalyzer.init.analyze_momentum_confluence rsiNeutralRow).bearish.filter isRSI = []) ∧
    ((TradingAnalyzer.init.analyze_momentum_confluence rsiAt30Row).bullish.filter isRSI = [] ∧
      (TradingAnalyzer.init.analyze_momentum_confluence rsiAt30Row).bearish.filter isRSI = [] ∧
      (TradingAnalyzer.init.analyze_momentum_confluence rsiAt30Row).neutral.filter isRSI = []) ∧
    ((TradingAnalyzer.init.analyze_momentum_confluence rsiAt70Row).bullish.filter isRSI = [] ∧
      (TradingAnalyzer.init.analyze_momentum_confluence rsiAt70Row).bearish.filter isRSI = [] ∧
      (TradingAnalyzer.init.analyze_momentum_confluence rsiAt70Row).neutral.filter isRSI = []) :=
  ⟨(momentum_rsi_rules TradingAnalyzer.init rsiOversoldRow).1 (by decide),
   (momentum_rsi_rules TradingAnalyzer.init rsiOverboughtRow).2.1 (by decide),
   (momentum_rsi_rules TradingAnalyzer.init rsiNeutralRow).2.2.1 (by decide) (by decide),
   (momentum_rsi_rules TradingAnalyzer.init rsiAt30Row).2.2.2.1 rfl,
   (momentum_rsi_rules TradingAnalyzer.init rsiAt70Row).2.2.2.2 rfl⟩

set_option maxHeartbeats 1600000 in
/-- C6: the trend ADX rules leave a dead zone on the closed interval
from 20 to 25: the trend-strength branch needs ADX strictly above 25,
assigns the direction of the larger DI with strength Strong above 40 and
Medium otherwise, the ranging branch needs ADX strictly below 20, ADX
exactly 25 or exactly 20 yields no ADX signal at all, and ADX 25.01 with
DI+ above DI- yields one bullish Medium ADX signal. -/
theorem trend_adx_rules (a : TradingAnalyzer) (row : Row) :
    ((Val.num 20).le row.ADX = true → row.ADX.le (Val.num 25) = true →
      (a.analyze_trend_confluence row).bullish.filter isADX = [] ∧
      (a.analyze_trend_confluence row).bearish.filter isADX = [] ∧
      (a.analyze_trend_confluence row).neutral.filter isADX = []) ∧
    (row.ADX.gt (Val.num 25) = true → row.DI_Plus.gt row.DI_Minus = true →
      ((a.analyze_trend_confluence row).bullish.filter isADX).map Signal.strength
        = [if row.ADX.gt (Val.num 40) then "Strong" else "Medium"] ∧
      (a.analyze_trend_confluence row).bearish.filter isADX = [] ∧
      (a.analyze_trend_confluence row).neutral.filter isADX = []) ∧
    (row.ADX.gt (Val.num 25) = true → row.DI_Plus.gt row.DI_Minus = false →
      ((a.analyze_trend_confluence row).bearish.filter isADX).map Signal.strength
        = [if row.ADX.gt (Val.num 40) then "Strong" else "Medium"] ∧
      (a.analyze_trend_confluence row).bullish.filter isADX = [] ∧
      (a.analyze_trend_confluence row).neutral.filter isADX = []) ∧
    (row.ADX.lt (Val.num 20) = true →
      ((a.analyze_trend_confluence row).neutral.filter isADX).map Signal.strength = ["Medium"] ∧
      (a.analyze_trend_confluence row).bullish.filter isADX = [] ∧
      (a.analyze_trend_confluence row).bearish.filter isADX = []) ∧
    (row.ADX = Val.num 25 →
      (a.analyze_trend_confluence row).bullish.filter isADX = [] ∧
      (a.analyze_trend_confluence row).bearish.filter isADX = [] ∧
      (a.analyze_trend_confluence row).neutral.filter isADX = []) ∧
    (row.ADX = Val.num 20 →
      (a.analyze_trend_confluence row).bullish.filter isADX = [] ∧
      (a.analyze_trend_confluence row).bearish.filter isADX = [] ∧
      (a.analyze_trend_confluence row).neutral.filter isADX = []) ∧
    (row.ADX = Val.num (mkRat 2501 100) → row.DI_Plus.gt row.DI_Minus = true →
      ((a.analyze_trend_confluence row).bullish.filter isADX).map Signal.strength
        = ["Medium"] ∧
      (a.analyze_trend_confluence row).bearish.filter isADX = [] ∧
      (a.analyze_trend_confluence row).neutral.filter isADX = []) := by
  refine ⟨?_, ?_, ?_, ?_, ?_, ?_, ?_⟩
  · intro h20 h25
    obtain ⟨q, hq, h20q⟩ := val_le_num_elim_left h20
    rw [hq] at h25
    have h25q : q ≤ 25 := by simpa [Val.le] using h25
    have hgt : Val.gt row.ADX (Val.num 25) = false := by
      rw [hq]
      exact decide_eq_false (by linarith)
    have hlt : Val.lt row.ADX (Val.num 20) = false := by
      rw [hq]
      exact decide_eq_false (by linarith)
    refine ⟨?_, ?_, ?_⟩ <;>
      simp [TradingAnalyzer.analyze_trend_confluence, hgt, hlt, ite_bullish, ite_bearish,
        ite_neutral, ite_filter, ite_map, addBull, addBear, addNeut, isADX, List.filter_append]
  · intro h hdi
    refine ⟨?_, ?_, ?_⟩ <;>
      simp [TradingAnalyzer.analyze_trend_confluence, h, hdi, ite_bullish, ite_bearish,
        ite_neutral, ite_filter, ite_map, addBull, addBear, addNeut, isADX, List.filter_append]
  · intro h hdi
    refine ⟨?_, ?_, ?_⟩ <;>
      simp [TradingAnalyzer.analyze_trend_confluence, h, hdi, ite_bullish, ite_bearish,
        ite_neutral, ite_filter, ite_map, addBull, addBear, addNeut, isADX, List.filter_append]
  · intro h
    have h' : Val.lt row.ADX (Val.num 20) = true := h
    obtain ⟨q, hq, hq20⟩ := val_lt_num_elim_right h'
    have hgt : Val.gt row.ADX (Val.num 25) = false := by
      rw [hq]
      exact decide_eq_false (by linarith)
    refine ⟨?_, ?_, ?_⟩ <;>
      simp [TradingAnalyzer.analyze_trend_confluence, h, hgt, ite_bullish, ite_bearish,
        ite_neutral, ite_filter, ite_map, addBull, addBear, addNeut, isADX, List.filter_append]
  · intro h
    have hgt : Val.gt (Val.num 25) (Val.num 25) = false := by decide
    have hlt : Val.lt (Val.num 25) (Val.num 20) = false := by decide
    refine ⟨?_, ?_, ?_⟩ <;>
      simp [TradingAnalyzer.analyze_trend_confluence, h, hgt, hlt, ite_bullish, ite_bearish,
        ite_neutral, ite_filter, ite_map, addBull, addBear, addNeut, isADX, List.filter_append]
  · intro h
    have hgt : Val.gt (Val.num 20) (Val.num 25) = false := by decide
    have hlt : Val.lt (Val.num 20) (Val.num 20) = false := by decide
    refine ⟨?_, ?_, ?_⟩ <;>
      simp [TradingAnalyzer.analyze_trend_confluence, h, hgt, hlt, ite_bullish, ite_bearish,
        ite_neutral, ite_filter, ite_map, addBull, addBear, addNeut, isADX, List.filter_append]
  · intro h hdi
    have hgt : Val.gt (Val.num (mkRat 2501 100)) (Val.num 25) = true := by decide
    have hgt40 : Val.gt (Val.num (mkRat 2501 100)) (Val.num 40) = false := by decide
    refine ⟨?_, ?_, ?_⟩ <;>
      simp [TradingAnalyzer.analyze_trend_confluence, h, hdi, hgt, hgt40, ite_bullish,
        ite_bearish, ite_neutral, ite_filter, ite_map, addBull, addBear, addNeut, isADX,
        List.filter_append]

/-- C6 witness: the ADX rules evaluated at snapshots with ADX 22 (dead
zone), 30 with DI+ larger, 30 with DI- larger, 15, exactly 25, exactly
20, and 25.01 with DI+ larger. -/
theorem trend_adx_rules_witness :
    ((TradingAnalyzer.init.analyze_trend_confluence baseRow).bullish.filter isADX = [] ∧
      (TradingAnalyzer.init.analyze_trend_confluence baseRow).bearish.filter isADX = [] ∧
      (TradingAnalyzer.init.analyze_trend_confluence baseRow).neutral.filter isADX = []) ∧
    (((TradingAnalyzer.init.analyze_trend_confluence adxBullRow).bullish.filter isADX).map
        Signal.strength = [if adxBullRow.ADX.gt (Val.num 40) then "Strong" else "Medium"] ∧
      (TradingAnalyzer.init.analyze_trend_confluence adxBullRow).bearish.filter isADX = [] ∧
      (TradingAnalyzer.init.analyze_trend_confluence adxBullRow).neutral.filter isADX = []) ∧
    (((TradingAnalyzer.init.analyze_trend_confluence adxBearRow).bearish.filter isADX).map
        Signal.strength = [if adxBearRow.ADX.gt (Val.num 40) then "Strong" else "Medium"] ∧
      (TradingAnalyzer.init.analyze_trend_confluence adxBearRow).bullish.filter isADX = [] ∧
      (TradingAnalyzer.init.analyze_trend_confluence adxBearRow).neutral.filter isADX = []) ∧
    (((TradingAnalyzer.init.analyze_trend_confluence adxLowRow).neutral.filter isADX).map
        Signal.strength = ["Medium"] ∧
      (TradingAnalyzer.init.analyze_trend_confluence adxLowRow).bullish.filter isADX = [] ∧
      (TradingAnalyzer.init.analyze_trend_confluence adxLowRow).bearish.filter isADX = []) ∧
    ((TradingAnalyzer.init.analyze_trend_confluence adxAt25Row).bullish.filter isADX = [] ∧
      (TradingAnalyzer.init.analyze_trend_confluence adxAt25Row).bearish.filter isADX = [] ∧
      (TradingAnalyzer.init.analyze_trend_confluence adxAt25Row).neutral.filter isADX = []) ∧
    ((TradingAnalyzer.init.analyze_trend_confluence adxAt20Row).bullish.filter isADX = [] ∧
      (TradingAnalyzer.init.analyze_trend_confluence adxAt20Row).bearish.filter isADX = [] ∧
      (TradingAnalyzer.init.analyze_trend_confluence adxAt20Row).neutral.filter isADX = []) ∧
    (((TradingAnalyzer.init.analyze_trend_confluence adx2501Row).bullish.filter isADX).map
        Signal.strength = ["Medium"] ∧
      (TradingAnalyzer.init.analyze_trend_confluence adx2501Row).bearish.filter isADX = [] ∧
      (TradingAnalyzer.init.analyze_trend_confluence adx2501Row).neutral.filter isADX = []) :=
  ⟨(trend_adx_rules TradingAnalyzer.init baseRow).1 (by decide) (by decide),
   (trend_adx_rules TradingAnalyzer.init adxBullRow).2.1 (by decide) (by decide),
   (trend_adx_rules TradingAnalyzer.init adxBearRow).2.2.1 (by decide) (by decide),
   (trend_adx_rules TradingAnalyzer.init adxLowRow).2.2.2.1 (by decide),
   (trend_adx_rules TradingAnalyzer.init adxAt25Row).2.2.2.2.1 rfl,
   (trend_adx_rules TradingAnalyzer.init adxAt20Row).2.2.2.2.2.1 rfl,
   (trend_adx_rules TradingAnalyzer.init adx2501Row).2.2.2.2.2.2 rfl (by decide)⟩

/-- C2 counterexample: on a snapshot whose RSI is NaN the engine does
not fail at all: evaluation runs to completion with no validation step,
the RSI rule is silently skipped, the other rules still fire, and a
complete-looking Bullish Bias verdict at confidence 100 is produced. -/
theorem no_validation_counterexample :
    c2Row.RSI_14 = Val.nan ∧
    (TradingAnalyzer.init.generate_comprehensive_analysis c2Row).1.bullish.filter isRSI = [] ∧
    (TradingAnalyzer.init.generate_comprehensive_analysis c2Row).1.bullish.map Signal.indicator
      = ["Price vs EMA 21", "Chaikin Money Flow"] ∧
    TradingAnalyzer.init.calculate_confluence_strength
      (TradingAnalyzer.init.generate_comprehensive_analysis c2Row).1 = ("Bullish Bias", 100) := by
  have hbs : bullish_score (TradingAnalyzer.init.generate_comprehensive_analysis c2Row).1 = 4 := by
    with_unfolding_all decide
  have hes : bearish_score (TradingAnalyzer.init.generate_comprehensive_analysis c2Row).1 = 0 := by
    with_unfolding_all decide
  have hns : neutral_score (TradingAnalyzer.init.generate_comprehensive_analysis c2Row).1 = 0 := by
    with_unfolding_all decide
  have hts : total_score (TradingAnalyzer.init.generate_comprehensive_analysis c2Row).1 = 4 := by
    rw [total_score, hbs, hes, hns]
  have hbias : TradingAnalyzer.init.calculate_confluence_strength
      (TradingAnalyzer.init.generate_comprehensive_analysis c2Row).1 = ("Bullish Bias", 100) := by
    simp only [TradingAnalyzer.calculate_confluence_strength]
    simp only [hts, hbs, hes]
    norm_num [TradingAnalyzer.init]
  exact ⟨rfl, by with_unfolding_all decide, by with_unfolding_all decide, hbias⟩

/-- C2 amended: the engine performs no snapshot validation and has no
error path: evaluation is total, and when the RSI field is NaN every
comparison on it is false, so the RSI rule is silently skipped (no RSI
signal appears anywhere in the combined confluence set) while unaffected
rules, such as the Chaikin Money Flow rule, still fire. -/
theorem no_validation_nan_rsi_skipped (a : TradingAnalyzer) (row : Row)
    (h : row.RSI_14 = Val.nan) :
    (a.generate_comprehensive_analysis row).1.bullish.filter isRSI = [] ∧
    (a.generate_comprehensive_analysis row).1.bearish.filter isRSI = [] ∧
    (a.generate_comprehensive_analysis row).1.neutral.filter isRSI = [] ∧
    (row.CMF.gt (Val.num (mkRat 1 5)) = true →
      (a.generate_comprehensive_analysis row).1.bullish ≠ []) := by
  have hm := momentum_no_rsi_of_nan a row h
  have ht := trend_no_rsi a row
  have hv := volatility_no_rsi a row
  have hu := volume_no_rsi a row
  have hp := price_action_no_rsi a row
  refine ⟨?_, ?_, ?_, ?_⟩
  · simp [TradingAnalyzer.generate_comprehensive_analysis, List.filter_append,
      hm.1, ht.1, hv.1, hu.1, hp.1]
  · simp [TradingAnalyzer.generate_comprehensive_analysis, List.filter_append,
      hm.2.1, ht.2.1, hv.2.1, hu.2.1, hp.2.1]
  · simp [TradingAnalyzer.generate_comprehensive_analysis, List.filter_append,
      hm.2.2, ht.2.2, hv.2.2, hu.2.2, hp.2.2]
  · intro hcmf heq
    have hvol := volume_cmf_fires a row hcmf
    simp only [TradingAnalyzer.generate_comprehensive_analysis, List.append_eq_nil] at heq
    tauto

/-- C2 amended witness: the NaN-RSI snapshot with CMF 0.25. -/
theorem no_validation_nan_rsi_skipped_witness :
    (TradingAnalyzer.init.generate_comprehensive_analysis c2Row).1.bullish.filter isRSI = [] ∧
    (TradingAnalyzer.init.generate_comprehensive_analysis c2Row).1.bearish.filter isRSI = [] ∧
    (TradingAnalyzer.init.generate_comprehensive_analysis c2Row).1.neutral.filter isRSI = [] ∧
    (TradingAnalyzer.init.generate_comprehensive_analysis c2Row).1.bullish ≠ [] := by
  have h := no_validation_nan_rsi_skipped TradingAnalyzer.init c2Row rfl
  exact ⟨h.1, h.2.1, h.2.2.1, h.2.2.2 (by decide)⟩

end BetterPredictor
